import Mathlib

/-!
Verification of the string-pair similarity store
(`autogen_ext/apprentice/_string_similarity_map.py`, class `StringSimilarityMap`)
and of the trial loop of `Evaluator.test_fast_learner`
(`autogen_ext/agentic_memory/eval_framework/eval.py`).

Modelling conventions:
* The Python side table `uid_text_dict` is a `dict` keyed by `str(id)`;
  since `str` is injective on the integer ids used, keys are modelled
  directly as `Nat`.  Python dicts preserve insertion order and overwrite
  in place, which `dictInsert` below reproduces.
* The chroma collection is persistent (`is_persistent=True`), so the
  in-memory collection handle and its on-disk contents always agree; it is
  modelled as the single field `vec_db` (a list of `(id, document)` in
  insertion order).  The pickled file `uid_text_dict.pkl` is the field
  `disk_uid_text_dict` (`none` when the file does not exist).
* The vector backend's nearest-neighbour query is external; it is passed
  as an oracle `backend : String → Nat → List (Nat × String × ℚ)` mapping
  a query text and a requested neighbour count to a list of
  `(id, document, distance)` results.  Chroma returns the three parallel
  lists `ids`, `documents`, `distances` with equal lengths; they are
  modelled as one list of triples.  Distances (Python floats) are
  modelled as rationals.
* `get_related_string_pairs` can raise: a `KeyError` from
  `self.uid_text_dict[uid]` (the spec's `InconsistentIndex`) or an
  `AssertionError` from `assert input_text == input_text_2`.  It is
  modelled with `Except MapError`.  The outcome record additionally
  exposes whether the backend was queried and with which `n_results`,
  the two observable effects on the backend.
-/

/-- Errors `get_related_string_pairs` can raise: `inconsistentIndex uid`
is the `KeyError` raised by `self.uid_text_dict[uid]` when `uid` is not a
key of the side table, `assertionFailed` is the `AssertionError` of
`assert input_text == input_text_2`. -/
inductive MapError : Type where
  | inconsistentIndex (uid : Nat)
  | assertionFailed
deriving DecidableEq, Repr

/-- The state of one `StringSimilarityMap` over its storage directory:
the in-memory side table and id counter, the (persistent) chroma
collection, and the pickled side-table file. -/
structure StringSimilarityMap : Type where
  /-- `self.uid_text_dict`: insertion-ordered map from id to
  `(input_text, output_text)`. -/
  uid_text_dict : List (Nat × String × String)
  /-- `self.last_string_pair_id`. -/
  last_string_pair_id : Nat
  /-- The chroma collection `"string-pairs"`: `(id, document)` pairs in
  insertion order.  Persistent, so memory and disk agree. -/
  vec_db : List (Nat × String)
  /-- Contents of `uid_text_dict.pkl` on disk, `none` if absent. -/
  disk_uid_text_dict : Option (List (Nat × String × String))
deriving DecidableEq, Repr

/-- Python dict lookup `d[k]` on the insertion-ordered association list
(keys are unique, so first match suffices). -/
def dictLookup : List (Nat × String × String) → Nat → Option (String × String)
  | [], _ => none
  | (k, i, o) :: rest, u => if k = u then some (i, o) else dictLookup rest u

/-- Python dict assignment `d[k] = v`: overwrite in place if the key is
present, otherwise append. -/
def dictInsert : List (Nat × String × String) → Nat → String × String → List (Nat × String × String)
  | [], k, v => [(k, v.1, v.2)]
  | (k', i, o) :: rest, k, v =>
      if k' = k then (k, v.1, v.2) :: rest else (k', i, o) :: dictInsert rest k v

namespace StringSimilarityMap

/-- Method `save_string_pairs`: pickle `self.uid_text_dict` to
`uid_text_dict.pkl`, overwriting it. -/
def save_string_pairs (s : StringSimilarityMap) : StringSimilarityMap :=
  { s with disk_uid_text_dict := some s.uid_text_dict }

/-- Method `reset_db`: delete the collection, recreate it empty, clear the
in-memory side table, then `save_string_pairs`.  Note that
`last_string_pair_id` is left unchanged. -/
def reset_db (s : StringSimilarityMap) : StringSimilarityMap :=
  save_string_pairs { s with vec_db := [], uid_text_dict := [] }

/-- Method `add_input_output_pair`: increment the counter, add the input text to
the collection under the new id, record the pair in the side table.
(The backend's handling of a duplicate id is not modelled; ids produced
by the counter within one instance never repeat.) -/
def add_input_output_pair (s : StringSimilarityMap) (input_text output_text : String) :
    StringSimilarityMap :=
  { s with
    last_string_pair_id := s.last_string_pair_id + 1,
    vec_db := s.vec_db ++ [(s.last_string_pair_id + 1, input_text)],
    uid_text_dict :=
      dictInsert s.uid_text_dict (s.last_string_pair_id + 1) (input_text, output_text) }

end StringSimilarityMap

/-- Constructor `__init__(settings, reset, path_to_db_dir, logger)`, constructing a
store over a directory whose current on-disk state is `vec_on_disk` (the
persisted chroma collection, loaded by `create_collection` with
`get_or_create=True`) and `dict_file` (the contents of
`uid_text_dict.pkl`, `none` if the file does not exist): start with an
empty table and counter 0; if `reset` is false and the file exists, load
it and set the counter to its length; if `reset` is true, run
`reset_db`. -/
def initStringSimilarityMap (reset : Bool) (vec_on_disk : List (Nat × String))
    (dict_file : Option (List (Nat × String × String))) : StringSimilarityMap :=
  let s0 : StringSimilarityMap :=
    { uid_text_dict := [], last_string_pair_id := 0, vec_db := vec_on_disk,
      disk_uid_text_dict := dict_file }
  let s1 :=
    if reset = false then
      match dict_file with
      | some d => { s0 with uid_text_dict := d, last_string_pair_id := d.length }
      | none => s0
    else s0
  if reset then s1.reset_db else s1

deriving instance DecidableEq for Except

/-- Observable outcome of one `get_related_string_pairs` call: the return
value or raised error, whether `self.vec_db.query` was called, and the
`n_results` value passed to it (0 when it was not called). -/
structure RelatedOutcome : Type where
  result : Except MapError (List (String × String × ℚ))
  backend_queried : Bool
  requested : Nat
deriving DecidableEq, Repr

/-- The result-processing loop of `get_related_string_pairs` (lines
117-130): for each backend result in order, if its distance is strictly
below the threshold, look the id up in the side table (KeyError →
`inconsistentIndex`), assert the backend document equals the stored
input text, and append `(input_text, output_text, distance)`. -/
def processResults (dict : List (Nat × String × String)) (threshold : ℚ) :
    List (Nat × String × ℚ) → Except MapError (List (String × String × ℚ))
  | [] => .ok []
  | (uid, input_text, distance) :: rest =>
    if distance < threshold then
      match dictLookup dict uid with
      | none => .error (.inconsistentIndex uid)
      | some (input_text_2, output_text) =>
        if input_text = input_text_2 then
          match processResults dict threshold rest with
          | .ok l => .ok ((input_text, output_text, distance) :: l)
          | .error e => .error e
        else .error .assertionFailed
    else processResults dict threshold rest

namespace StringSimilarityMap

/-- Method `get_related_string_pairs(query_text, n_results, threshold)`: clamp
`n_results` to the side-table size; query the backend only when the
clamped value is positive; filter and translate the results. -/
def get_related_string_pairs (s : StringSimilarityMap)
    (backend : String → Nat → List (Nat × String × ℚ)) (query_text : String)
    (n_results : Int) (threshold : ℚ) : RelatedOutcome :=
  let n : Int :=
    if n_results > (s.uid_text_dict.length : Int) then (s.uid_text_dict.length : Int)
    else n_results
  if n > 0 then
    { result := processResults s.uid_text_dict threshold (backend query_text n.toNat),
      backend_queried := true,
      requested := n.toNat }
  else
    { result := .ok [], backend_queried := false, requested := 0 }

end StringSimilarityMap

/-- The clamp of lines 109-110: `n_results`, lowered to the side-table
size when it exceeds it. -/
def clampedN (s : StringSimilarityMap) (n_results : Int) : Int :=
  if n_results > (s.uid_text_dict.length : Int) then (s.uid_text_dict.length : Int)
  else n_results

/-- The list of raw backend results a `get_related_string_pairs` call
iterates over: the backend's answer for the clamped `n_results` when the
query happens, `[]` otherwise. -/
def queriedResults (s : StringSimilarityMap)
    (backend : String → Nat → List (Nat × String × ℚ)) (query_text : String)
    (n_results : Int) : List (Nat × String × ℚ) :=
  if clampedN s n_results > 0 then backend query_text (clampedN s n_results).toNat
  else []

/-- One operation on a live `StringSimilarityMap` instance (the methods
that mutate state; `get_related_string_pairs` is observationally pure). -/
inductive MapOp : Type where
  | addPair (input_text output_text : String)
  | resetDb
  | save
deriving DecidableEq, Repr

/-- Run one operation. -/
def runOp (s : StringSimilarityMap) : MapOp → StringSimilarityMap
  | .addPair i o => s.add_input_output_pair i o
  | .resetDb => s.reset_db
  | .save => s.save_string_pairs

/-- Run a sequence of operations left to right. -/
def runOps (s : StringSimilarityMap) (ops : List MapOp) : StringSimilarityMap :=
  ops.foldl runOp s

/-- The ids assigned by the `addPair` operations of a sequence, in call
order (`add_input_output_pair` assigns `last_string_pair_id + 1`). -/
def assignedIds (s : StringSimilarityMap) : List MapOp → List Nat
  | [] => []
  | .addPair i o :: ops =>
      (s.last_string_pair_id + 1) :: assignedIds (runOp s (.addPair i o)) ops
  | .resetDb :: ops => assignedIds (runOp s .resetDb) ops
  | .save :: ops => assignedIds (runOp s .save) ops

/-! ### `Evaluator.test_fast_learner` (eval.py lines 305-333)

The agent responses and the grader's verdicts are external (LLM calls);
they are abstracted into an oracle `grades : Nat → Bool` giving the
grader's correctness verdict for the trial with 0-based index `t`
(the page log labels it `TRIAL t+1`). -/

/-- The tally of the trial loop: `num_successes` after the first `n`
trials, each adding 1 exactly when the grader reports the response
correct. -/
def countSuccesses (grades : Nat → Bool) : Nat → Nat
  | 0 => 0
  | n + 1 => countSuccesses grades n + (if grades n then 1 else 0)

/-- Method `Evaluator.test_fast_learner(...)`: run `num_trials` trials, tally
the successes, log the success rate, and return
`(num_successes, num_trials)`.  The rate is computed as
`round((num_successes / num_trials) * 100)` before the return (line 331),
so with `num_trials = 0` the division raises `ZeroDivisionError` and the
function never returns: `none`. -/
def test_fast_learner (grades : Nat → Bool) (num_trials : Nat) : Option (Nat × Nat) :=
  if num_trials = 0 then none
  else some (countSuccesses grades num_trials, num_trials)

/-- Python's built-in `round`: round half to even.  (The success rates
rounded in eval.py are floats in [0, 100]; at the values of interest the
float and rational computations agree.) -/
def pyRound (q : ℚ) : Int :=
  if q - Int.floor q < 1 / 2 then Int.floor q
  else if 1 / 2 < q - Int.floor q then Int.floor q + 1
  else if Int.floor q % 2 = 0 then Int.floor q else Int.floor q + 1

/-- The expression `round((num_successes / num_trials) * 100)` computed
and logged by `test_fast_learner` and its callers. -/
def successRatePercent (num_successes num_trials : Nat) : Int :=
  pyRound ((num_successes : ℚ) / (num_trials : ℚ) * 100)

/-- A store holding the single pair ("a", "x") under id 1, used to
instantiate the retrieval theorems on concrete inputs. -/
def oneEntryMap : StringSimilarityMap :=
  { uid_text_dict := [(1, "a", "x")], last_string_pair_id := 1,
    vec_db := [(1, "a")], disk_uid_text_dict := none }

/-- A backend answering every query with one neighbor whose id 2 is
absent from `oneEntryMap`'s side table, at distance 5. -/
def strayFarBackend : String → Nat → List (Nat × String × ℚ) := fun _ _ => [(2, "b", 5)]

/-- A backend answering every query with one neighbor whose id 2 is
absent from `oneEntryMap`'s side table, at distance 0. -/
def strayNearBackend : String → Nat → List (Nat × String × ℚ) := fun _ _ => [(2, "b", 0)]

/-- A backend answering every query with `oneEntryMap`'s own entry at
distance 0. -/
def echoBackend : String → Nat → List (Nat × String × ℚ) := fun _ _ => [(1, "a", 0)]

/-! ### Helper lemmas -/

/-- The net contribution of one raw backend result to the returned list:
skipped when its distance is not below the threshold, otherwise the
`(input_text, output_text, distance)` triple built from the side-table
entry under its id (undefined — `none` — when that id is missing). -/
def relatedOf (dict : List (Nat × String × String)) (threshold : ℚ)
    (r : Nat × String × ℚ) : Option (String × String × ℚ) :=
  if r.2.2 < threshold then
    (dictLookup dict r.1).map fun p => (r.2.1, p.2, r.2.2)
  else none

theorem relatedOf_some_lt {dict : List (Nat × String × String)} {threshold : ℚ}
    {r : Nat × String × ℚ} {e : String × String × ℚ}
    (h : relatedOf dict threshold r = some e) : e.2.2 < threshold := by
  unfold relatedOf at h
  split_ifs at h with hlt
  · obtain ⟨p, hp, rfl⟩ := Option.map_eq_some'.mp h
    exact hlt

theorem processResults_ok_mem {dict : List (Nat × String × String)} {threshold : ℚ}
    {res : List (Nat × String × ℚ)} {l : List (String × String × ℚ)}
    (h : processResults dict threshold res = .ok l) :
    ∀ r ∈ res, r.2.2 < threshold → ∃ o, dictLookup dict r.1 = some (r.2.1, o) := by
  induction res generalizing l with
  | nil => simp
  | cons hd rest ih =>
    obtain ⟨u, doc, d⟩ := hd
    intro r hr hrthr
    simp only [processResults] at h
    by_cases hd' : d < threshold
    · rw [if_pos hd'] at h
      cases hlk : dictLookup dict u with
      | none => rw [hlk] at h; simp at h
      | some p =>
        obtain ⟨i2, o⟩ := p
        rw [hlk] at h
        dsimp only at h
        by_cases hdoc : doc = i2
        · rw [if_pos hdoc] at h
          cases hrec : processResults dict threshold rest with
          | ok l' =>
            rcases List.mem_cons.mp hr with rfl | hr'
            · exact ⟨o, by rw [hlk, hdoc]⟩
            · exact ih hrec r hr' hrthr
          | error e => rw [hrec] at h; simp at h
        · rw [if_neg hdoc] at h; simp at h
    · rw [if_neg hd'] at h
      rcases List.mem_cons.mp hr with rfl | hr'
      · exact absurd hrthr hd'
      · exact ih h r hr' hrthr

theorem processResults_ok_eq {dict : List (Nat × String × String)} {threshold : ℚ}
    {res : List (Nat × String × ℚ)} {l : List (String × String × ℚ)}
    (h : processResults dict threshold res = .ok l) :
    l = res.filterMap (relatedOf dict threshold) := by
  induction res generalizing l with
  | nil => simp only [processResults] at h; cases h; simp
  | cons hd rest ih =>
    obtain ⟨u, doc, d⟩ := hd
    simp only [processResults] at h
    by_cases hd' : d < threshold
    · rw [if_pos hd'] at h
      cases hlk : dictLookup dict u with
      | none => rw [hlk] at h; simp at h
      | some p =>
        obtain ⟨i2, o⟩ := p
        rw [hlk] at h
        dsimp only at h
        by_cases hdoc : doc = i2
        · rw [if_pos hdoc] at h
          cases hrec : processResults dict threshold rest with
          | ok l' =>
            rw [hrec] at h
            simp only [Except.ok.injEq] at h
            rw [← h, List.filterMap_cons, ih hrec]
            simp [relatedOf, hd', hlk, hdoc]
          | error e => rw [hrec] at h; simp at h
        · rw [if_neg hdoc] at h; simp at h
    · rw [if_neg hd'] at h
      rw [List.filterMap_cons, ih h]
      simp [relatedOf, hd']

theorem processResults_of_consistent {dict : List (Nat × String × String)} {threshold : ℚ}
    {res : List (Nat × String × ℚ)}
    (h : ∀ r ∈ res, r.2.2 < threshold → ∃ o, dictLookup dict r.1 = some (r.2.1, o)) :
    processResults dict threshold res = .ok (res.filterMap (relatedOf dict threshold)) := by
  induction res with
  | nil => simp [processResults]
  | cons hd rest ih =>
    obtain ⟨u, doc, d⟩ := hd
    have htail := ih fun r hr => h r (List.mem_cons_of_mem _ hr)
    simp only [processResults, List.filterMap_cons]
    by_cases hd' : d < threshold
    · obtain ⟨o, hlk⟩ := h (u, doc, d) (List.mem_cons_self _ _) hd'
      dsimp only at hlk
      rw [if_pos hd', hlk]
      dsimp only
      rw [if_pos rfl, htail]
      simp [relatedOf, hd', hlk]
    · rw [if_neg hd', htail]
      simp [relatedOf, hd']

theorem processResults_ne_assertionFailed {dict : List (Nat × String × String)} {threshold : ℚ}
    {res : List (Nat × String × ℚ)}
    (h : ∀ r ∈ res, r.2.2 < threshold →
      ∀ i o, dictLookup dict r.1 = some (i, o) → r.2.1 = i) :
    processResults dict threshold res ≠ .error .assertionFailed := by
  induction res with
  | nil => simp [processResults]
  | cons hd rest ih =>
    obtain ⟨u, doc, d⟩ := hd
    have htail := ih fun r hr => h r (List.mem_cons_of_mem _ hr)
    simp only [processResults]
    by_cases hd' : d < threshold
    · rw [if_pos hd']
      cases hlk : dictLookup dict u with
      | none => simp
      | some p =>
        obtain ⟨i2, o⟩ := p
        have hdoc : doc = i2 := h (u, doc, d) (List.mem_cons_self _ _) hd' i2 o hlk
        dsimp only
        rw [if_pos hdoc]
        cases hrec : processResults dict threshold rest with
        | ok l => simp
        | error e => rw [hrec] at htail; simpa using htail
    · rw [if_neg hd']
      exact htail

theorem get_related_result_eq (s : StringSimilarityMap)
    (backend : String → Nat → List (Nat × String × ℚ)) (query_text : String)
    (n_results : Int) (threshold : ℚ) :
    (s.get_related_string_pairs backend query_text n_results threshold).result =
      processResults s.uid_text_dict threshold
        (queriedResults s backend query_text n_results) := by
  simp only [StringSimilarityMap.get_related_string_pairs, queriedResults, clampedN]
  split_ifs <;> rfl

theorem mem_queriedResults {s : StringSimilarityMap}
    {backend : String → Nat → List (Nat × String × ℚ)} {q : String} {n : Int}
    {r : Nat × String × ℚ} (hr : r ∈ queriedResults s backend q n) :
    r ∈ backend q (clampedN s n).toNat := by
  unfold queriedResults at hr
  split at hr
  · exact hr
  · simp at hr

theorem last_le_runOp (s : StringSimilarityMap) (op : MapOp) :
    s.last_string_pair_id ≤ (runOp s op).last_string_pair_id := by
  cases op with
  | addPair i o => exact Nat.le_succ _
  | resetDb => exact Nat.le_refl _
  | save => exact Nat.le_refl _

theorem last_le_runOps (ops : List MapOp) : ∀ s : StringSimilarityMap,
    s.last_string_pair_id ≤ (runOps s ops).last_string_pair_id := by
  induction ops with
  | nil => intro s; exact Nat.le_refl _
  | cons op ops ih =>
    intro s
    exact Nat.le_trans (last_le_runOp s op) (ih (runOp s op))

theorem runOps_cons (s : StringSimilarityMap) (op : MapOp) (ops : List MapOp) :
    runOps s (op :: ops) = runOps (runOp s op) ops := rfl

theorem assignedIds_bounds (ops : List MapOp) : ∀ (s : StringSimilarityMap) (a : Nat),
    a ∈ assignedIds s ops →
    s.last_string_pair_id < a ∧ a ≤ (runOps s ops).last_string_pair_id := by
  induction ops with
  | nil => intro s a ha; simp [assignedIds] at ha
  | cons op ops ih =>
    intro s a ha
    cases op with
    | addPair i o =>
      rw [assignedIds] at ha
      rcases List.mem_cons.mp ha with rfl | ha'
      · refine ⟨Nat.lt_succ_self _, ?_⟩
        rw [runOps_cons]
        exact last_le_runOps ops (runOp s (.addPair i o))
      · obtain ⟨h1, h2⟩ := ih (runOp s (.addPair i o)) a ha'
        exact ⟨Nat.lt_of_le_of_lt (Nat.le_succ _) h1, h2⟩
    | resetDb =>
      rw [assignedIds] at ha
      obtain ⟨h1, h2⟩ := ih (runOp s .resetDb) a ha
      exact ⟨h1, h2⟩
    | save =>
      rw [assignedIds] at ha
      obtain ⟨h1, h2⟩ := ih (runOp s .save) a ha
      exact ⟨h1, h2⟩

theorem assignedIds_addPairs (ps : List (String × String)) : ∀ s : StringSimilarityMap,
    assignedIds s (ps.map fun p => MapOp.addPair p.1 p.2) =
      List.range' (s.last_string_pair_id + 1) ps.length := by
  induction ps with
  | nil => intro s; simp [assignedIds]
  | cons p ps ih =>
    intro s
    simp only [List.map_cons, assignedIds, List.length_cons, List.range'_succ]
    rw [ih]
    rfl

/-! ### Claim theorems -/

/-- C6: `reset_db` deletes the vector collection and recreates it empty,
clears the in-memory side table, and immediately persists the now-empty
side table to the file on disk; every other field (in particular the id
counter) is unchanged, so after a reset the vector index and the side
table — in memory and on disk — are all empty. -/
theorem C6_reset_clears_and_persists (s : StringSimilarityMap) :
    s.reset_db =
      { uid_text_dict := [], last_string_pair_id := s.last_string_pair_id,
        vec_db := [], disk_uid_text_dict := some [] } := rfl

/-- C7: `add_input_output_pair` never writes the side table to disk — the
persisted file is exactly what it was — and modifies only the id counter,
the vector index and the in-memory side table; persisting happens only in
an explicit `save_string_pairs` or in `reset_db`. -/
theorem C7_add_pair_no_disk_write (s : StringSimilarityMap) (i o : String) :
    (s.add_input_output_pair i o).disk_uid_text_dict = s.disk_uid_text_dict ∧
    s.add_input_output_pair i o =
      { uid_text_dict := dictInsert s.uid_text_dict (s.last_string_pair_id + 1) (i, o),
        last_string_pair_id := s.last_string_pair_id + 1,
        vec_db := s.vec_db ++ [(s.last_string_pair_id + 1, i)],
        disk_uid_text_dict := s.disk_uid_text_dict } ∧
    (s.save_string_pairs).disk_uid_text_dict = some s.uid_text_dict ∧
    (s.reset_db).disk_uid_text_dict = some [] :=
  ⟨rfl, rfl, rfl, rfl⟩

/-- C4: starting from a freshly created empty store (id counter 0 — which
is what construction yields whenever it does not load an existing file),
a sequence of `add_input_output_pair` calls with no intervening reset
assigns exactly the ids `1, 2, …, k` in order; and a store constructed
without reset over an existing side-table file seeds the counter with the
count of loaded entries. -/
theorem C4_ids_consecutive_and_seeded (s : StringSimilarityMap)
    (ps : List (String × String)) (h : s.last_string_pair_id = 0) :
    assignedIds s (ps.map fun p => MapOp.addPair p.1 p.2) = List.range' 1 ps.length ∧
    (∀ v d, (initStringSimilarityMap false v (some d)).last_string_pair_id = d.length) ∧
    (∀ v d, (initStringSimilarityMap true v d).last_string_pair_id = 0) ∧
    (∀ v, (initStringSimilarityMap false v none).last_string_pair_id = 0) := by
  refine ⟨?_, fun v d => rfl, fun v d => rfl, fun v => rfl⟩
  rw [assignedIds_addPairs, h]

/-- C4 witness: two fresh adds assign exactly the ids [1, 2]. -/
theorem C4_witness :
    assignedIds (initStringSimilarityMap true [] none)
        ([("a", "x"), ("b", "y")].map fun p => MapOp.addPair p.1 p.2) =
      List.range' 1 2 ∧
    (∀ v d, (initStringSimilarityMap false v (some d)).last_string_pair_id = d.length) ∧
    (∀ v d, (initStringSimilarityMap true v d).last_string_pair_id = 0) ∧
    (∀ v, (initStringSimilarityMap false v none).last_string_pair_id = 0) :=
  C4_ids_consecutive_and_seeded (initStringSimilarityMap true [] none)
    [("a", "x"), ("b", "y")] rfl

/-- C5 counterexample: the claim quantifies over executions whose reset
is "triggered by constructing the store with reset true".  Constructing
a second store with `reset = true` over the directory of a first store
that already assigned id 1 re-seeds the counter at 0 (`__init__` sets it
to 0 and `reset_db` does not touch it), so the very next `addPair`
assigns id 1 again: an id assigned before the reset is reassigned after
it, contradicting the claim. -/
theorem C5_counterexample :
    assignedIds (initStringSimilarityMap true [] none) [MapOp.addPair "a" "x"] = [1] ∧
    assignedIds
        (initStringSimilarityMap true
          (runOps (initStringSimilarityMap true [] none) [MapOp.addPair "a" "x"]).vec_db
          (runOps (initStringSimilarityMap true [] none)
            [MapOp.addPair "a" "x"]).disk_uid_text_dict)
        [MapOp.addPair "b" "y"] = [1] :=
  ⟨rfl, rfl⟩

/-- C5 (amended): within one live store instance, ids are never reused
after a `reset_db` call: every id assigned by `addPair` after the reset
is strictly greater than (hence distinct from) every id assigned before
it, because `reset_db` leaves the monotone id counter untouched.
(Constructing a new store with reset true re-seeds the counter at 0 and
does reuse ids, per the counterexample.) -/
theorem C5_no_reuse_after_reset_db (s : StringSimilarityMap)
    (pre post : List MapOp) (a b : Nat)
    (ha : a ∈ assignedIds s pre)
    (hb : b ∈ assignedIds (runOps s (pre ++ [MapOp.resetDb])) post) : a < b := by
  have h1 := (assignedIds_bounds pre s a ha).2
  have h2 := (assignedIds_bounds post (runOps s (pre ++ [MapOp.resetDb])) b hb).1
  have h3 : (runOps s (pre ++ [MapOp.resetDb])).last_string_pair_id =
      (runOps s pre).last_string_pair_id := by
    rw [runOps, List.foldl_append]
    rfl
  omega

/-- C5 witness: with one add before a direct `reset_db` and one after,
the first id (1) is strictly below the second (2). -/
theorem C5_witness :
    1 ∈ assignedIds (initStringSimilarityMap true [] none) [MapOp.addPair "a" "x"] ∧
    2 ∈ assignedIds
          (runOps (initStringSimilarityMap true [] none)
            ([MapOp.addPair "a" "x"] ++ [MapOp.resetDb]))
          [MapOp.addPair "b" "y"] ∧
    1 < 2 :=
  ⟨by decide, by decide,
    C5_no_reuse_after_reset_db (initStringSimilarityMap true [] none)
      [MapOp.addPair "a" "x"] [MapOp.addPair "b" "y"] 1 2 (by decide) (by decide)⟩

/-- C8 counterexample: the claim says reconstruction resumes id
allocation "from the same counter value as the saved store", for every
store state.  After a `reset_db` followed by one `addPair`, the saved
store's counter is 2 but its side table has one entry, so the
reconstructed store's counter (`len(uid_text_dict)`) is 1 ≠ 2. -/
theorem C8_counterexample :
    (((initStringSimilarityMap true [] none).add_input_output_pair "a"
        "x").reset_db.add_input_output_pair "b" "y").last_string_pair_id = 2 ∧
    (initStringSimilarityMap false
        (((initStringSimilarityMap true [] none).add_input_output_pair "a"
            "x").reset_db.add_input_output_pair "b" "y").save_string_pairs.vec_db
        (((initStringSimilarityMap true [] none).add_input_output_pair "a"
            "x").reset_db.add_input_output_pair "b"
          "y").save_string_pairs.disk_uid_text_dict).last_string_pair_id = 1 :=
  ⟨rfl, rfl⟩

/-- C8 (amended): `save_string_pairs` followed by reconstruction without
reset from the same directory reproduces exactly the same side-table
contents and sets the id counter to the number of side-table entries; this
equals the saved store's counter whenever that counter equals the entry
count (as it does for any store that never mixed `reset_db` with earlier
adds), but not in general. -/
theorem C8_roundtrip (s : StringSimilarityMap) :
    (initStringSimilarityMap false s.save_string_pairs.vec_db
        s.save_string_pairs.disk_uid_text_dict).uid_text_dict = s.uid_text_dict ∧
    (initStringSimilarityMap false s.save_string_pairs.vec_db
        s.save_string_pairs.disk_uid_text_dict).last_string_pair_id =
      s.uid_text_dict.length ∧
    (s.last_string_pair_id = s.uid_text_dict.length →
      (initStringSimilarityMap false s.save_string_pairs.vec_db
          s.save_string_pairs.disk_uid_text_dict).last_string_pair_id =
        s.last_string_pair_id) := by
  refine ⟨rfl, rfl, fun h => ?_⟩
  rw [h]
  rfl

/-- C8 witness: a store with one added pair round-trips with the same
table and the same counter value 1. -/
theorem C8_witness :
    (initStringSimilarityMap false
        ((initStringSimilarityMap true [] none).add_input_output_pair "a"
            "x").save_string_pairs.vec_db
        ((initStringSimilarityMap true [] none).add_input_output_pair "a"
            "x").save_string_pairs.disk_uid_text_dict).uid_text_dict =
      ((initStringSimilarityMap true [] none).add_input_output_pair "a"
          "x").uid_text_dict ∧
    (initStringSimilarityMap false
        ((initStringSimilarityMap true [] none).add_input_output_pair "a"
            "x").save_string_pairs.vec_db
        ((initStringSimilarityMap true [] none).add_input_output_pair "a"
            "x").save_string_pairs.disk_uid_text_dict).last_string_pair_id =
      ((initStringSimilarityMap true [] none).add_input_output_pair "a"
          "x").uid_text_dict.length ∧
    (((initStringSimilarityMap true [] none).add_input_output_pair "a"
          "x").last_string_pair_id =
        ((initStringSimilarityMap true [] none).add_input_output_pair "a"
            "x").uid_text_dict.length →
      (initStringSimilarityMap false
          ((initStringSimilarityMap true [] none).add_input_output_pair "a"
              "x").save_string_pairs.vec_db
          ((initStringSimilarityMap true [] none).add_input_output_pair "a"
              "x").save_string_pairs.disk_uid_text_dict).last_string_pair_id =
        ((initStringSimilarityMap true [] none).add_input_output_pair "a"
            "x").last_string_pair_id) :=
  C8_roundtrip ((initStringSimilarityMap true [] none).add_input_output_pair "a" "x")

/-- C1 counterexample: the claim demands failure for every returned
neighbor whose id is absent from the side table, but the code checks the
distance threshold before the side-table lookup, so a returned neighbor
with a missing id whose distance is not below the threshold is silently
dropped: on `oneEntryMap`, a backend neighbor (id 2, distance 5 ≥
threshold 1) is absent from the side table, yet the call succeeds with
an empty result instead of failing with `InconsistentIndex`. -/
theorem C1_counterexample :
    (2, "b", (5 : ℚ)) ∈ queriedResults oneEntryMap strayFarBackend "q" 1 ∧
    dictLookup oneEntryMap.uid_text_dict 2 = none ∧
    (oneEntryMap.get_related_string_pairs strayFarBackend "q" 1 1).result = .ok [] :=
  ⟨by decide, by decide, by decide⟩

/-- C1 (amended): if a returned neighbor whose distance is strictly below
the threshold has an id absent from the side table, the operation fails
(it returns no result list); moreover, when no returned sub-threshold
neighbor trips the document-consistency assertion, the failure is
`InconsistentIndex`.  (A neighbor at or above the threshold is filtered
out before the lookup and cannot trigger the failure.) -/
theorem C1_missing_id_below_threshold_fails (s : StringSimilarityMap)
    (backend : String → Nat → List (Nat × String × ℚ)) (q : String) (n : Int)
    (threshold : ℚ) (u : Nat) (doc : String) (d : ℚ)
    (hmem : (u, doc, d) ∈ queriedResults s backend q n)
    (hd : d < threshold)
    (hnone : dictLookup s.uid_text_dict u = none) :
    (∀ l, (s.get_related_string_pairs backend q n threshold).result ≠ .ok l) ∧
    ((∀ r ∈ queriedResults s backend q n, r.2.2 < threshold →
        ∀ i o, dictLookup s.uid_text_dict r.1 = some (i, o) → r.2.1 = i) →
      ∃ u', (s.get_related_string_pairs backend q n threshold).result =
        .error (.inconsistentIndex u')) := by
  constructor
  · intro l hok
    rw [get_related_result_eq] at hok
    obtain ⟨o, ho⟩ := processResults_ok_mem hok (u, doc, d) hmem hd
    rw [hnone] at ho
    cases ho
  · intro hassert
    rw [get_related_result_eq]
    cases hres : processResults s.uid_text_dict threshold
        (queriedResults s backend q n) with
    | ok l =>
      obtain ⟨o, ho⟩ := processResults_ok_mem hres (u, doc, d) hmem hd
      rw [hnone] at ho
      cases ho
    | error e =>
      cases e with
      | inconsistentIndex u' => exact ⟨u', rfl⟩
      | assertionFailed => exact absurd hres (processResults_ne_assertionFailed hassert)

/-- C1 witness: on `oneEntryMap` with a sub-threshold neighbor whose id 2
is missing, retrieval fails, with `InconsistentIndex`. -/
theorem C1_witness :
    (∀ l, (oneEntryMap.get_related_string_pairs strayNearBackend "q" 1 1).result ≠
      .ok l) ∧
    ((∀ r ∈ queriedResults oneEntryMap strayNearBackend "q" 1, r.2.2 < 1 →
        ∀ i o, dictLookup oneEntryMap.uid_text_dict r.1 = some (i, o) → r.2.1 = i) →
      ∃ u', (oneEntryMap.get_related_string_pairs strayNearBackend "q" 1 1).result =
        .error (.inconsistentIndex u')) :=
  C1_missing_id_below_threshold_fails oneEntryMap strayNearBackend "q" 1 1 2 "b" 0
    (by decide) (by decide) (by decide)

/-- C2: whenever `get_related_string_pairs` returns (rather than raises),
the returned list is exactly the order-preserving image of the backend's
result list restricted to the neighbors whose distance is strictly below
the threshold — so a pair is included iff its backend-reported distance
is below the threshold, the backend's ascending-distance order is kept,
and no returned tuple carries a distance ≥ the threshold. -/
theorem C2_threshold_filter_and_order (s : StringSimilarityMap)
    (backend : String → Nat → List (Nat × String × ℚ)) (q : String) (n : Int)
    (threshold : ℚ) (l : List (String × String × ℚ))
    (h : (s.get_related_string_pairs backend q n threshold).result = .ok l) :
    (∀ e ∈ l, e.2.2 < threshold) ∧
    l = (queriedResults s backend q n).filterMap
      (relatedOf s.uid_text_dict threshold) := by
  rw [get_related_result_eq] at h
  refine ⟨?_, processResults_ok_eq h⟩
  intro e he
  rw [processResults_ok_eq h] at he
  obtain ⟨r, _, hr⟩ := List.mem_filterMap.mp he
  exact relatedOf_some_lt hr

/-- C2 witness: on `oneEntryMap` with its own entry echoed at distance 0
and threshold 1, the returned list is the filtered backend list and every
distance is below 1. -/
theorem C2_witness :
    (∀ e ∈ [("a", "x", (0 : ℚ))], e.2.2 < 1) ∧
    [("a", "x", (0 : ℚ))] = (queriedResults oneEntryMap echoBackend "a" 1).filterMap
      (relatedOf oneEntryMap.uid_text_dict 1) :=
  C2_threshold_filter_and_order oneEntryMap echoBackend "a" 1 1
    [("a", "x", (0 : ℚ))] (by decide)

/-- C3: with `n_results = 0`, or on a store whose side table is empty (in
particular immediately after `reset_db`), retrieval returns the empty
list without querying the backend; in every case the neighbor count
requested from the backend is at most min(`n_results`, side-table
size). -/
theorem C3_empty_cases_and_request_bound (s : StringSimilarityMap)
    (backend : String → Nat → List (Nat × String × ℚ)) (q : String) (n : Int)
    (threshold : ℚ) :
    s.get_related_string_pairs backend q 0 threshold =
      ⟨.ok [], false, 0⟩ ∧
    (s.uid_text_dict = [] →
      s.get_related_string_pairs backend q n threshold = ⟨.ok [], false, 0⟩) ∧
    s.reset_db.get_related_string_pairs backend q n threshold =
      ⟨.ok [], false, 0⟩ ∧
    (s.get_related_string_pairs backend q n threshold).requested ≤
      min n.toNat s.uid_text_dict.length := by
  have key : ∀ t : StringSimilarityMap, t.uid_text_dict = [] →
      t.get_related_string_pairs backend q n threshold = ⟨.ok [], false, 0⟩ := by
    intro t ht
    simp only [StringSimilarityMap.get_related_string_pairs, ht, List.length_nil,
      Nat.cast_zero]
    split_ifs <;> first | rfl | (exfalso; omega)
  refine ⟨?_, key s, key s.reset_db rfl, ?_⟩
  · simp only [StringSimilarityMap.get_related_string_pairs]
    split_ifs <;> first | rfl | (exfalso; omega)
  · simp only [StringSimilarityMap.get_related_string_pairs]
    split_ifs <;> simp <;> omega

/-- C3 witness: on `oneEntryMap` (side table of size 1), `n_results = 0`
returns empty without a backend query; the empty-table case after reset
does as well, and the requested neighbor count with `n_results = 1` is
bounded by min(1, 1). -/
theorem C3_witness :
    oneEntryMap.get_related_string_pairs echoBackend "a" 0 1 =
      ⟨.ok [], false, 0⟩ ∧
    (oneEntryMap.uid_text_dict = [] →
      oneEntryMap.get_related_string_pairs echoBackend "a" 1 1 = ⟨.ok [], false, 0⟩) ∧
    oneEntryMap.reset_db.get_related_string_pairs echoBackend "a" 1 1 =
      ⟨.ok [], false, 0⟩ ∧
    (oneEntryMap.get_related_string_pairs echoBackend "a" 1 1).requested ≤
      min (Int.toNat 1) oneEntryMap.uid_text_dict.length :=
  C3_empty_cases_and_request_bound oneEntryMap echoBackend "a" 1 1

theorem countSuccesses_eq_filter (grades : Nat → Bool) :
    ∀ n, countSuccesses grades n = ((List.range n).filter grades).length := by
  intro n
  induction n with
  | zero => rfl
  | succ n ih =>
    rw [countSuccesses, List.range_succ, List.filter_append, List.length_append, ih]
    by_cases hg : grades n <;> simp [hg]

/-- C9: a `test_fast_learner` run over 3 trials whose grader reports
trials 1 and 3 (0-based indices 0 and 2) correct returns the pair (2, 3)
and logs a success rate of round((2/3)·100) = 67; for every positive
number of trials the return value is (number of trials graded correct,
`num_trials`), while at zero trials the success-rate division raises and
the function returns nothing. -/
theorem C9_test_fast_learner_counts :
    (test_fast_learner (fun t => t == 0 || t == 2) 3 = some (2, 3) ∧
      successRatePercent 2 3 = 67) ∧
    (∀ (grades : Nat → Bool) (num_trials : Nat), 0 < num_trials →
      test_fast_learner grades num_trials =
        some (((List.range num_trials).filter grades).length, num_trials)) ∧
    (∀ grades : Nat → Bool, test_fast_learner grades 0 = none) := by
  refine ⟨⟨by decide, ?_⟩, fun grades num_trials h => ?_, fun grades => rfl⟩
  · have hval : ((2 : ℕ) : ℚ) / ((3 : ℕ) : ℚ) * 100 = 200 / 3 := by
      push_cast
      ring
    have hfl : Int.floor ((200 : ℚ) / 3) = 66 := by
      rw [Int.floor_eq_iff]
      constructor <;> norm_num
    unfold successRatePercent pyRound
    rw [hval, hfl]
    rw [if_neg (by norm_num), if_pos (by norm_num)]
    norm_num
  · unfold test_fast_learner
    rw [if_neg (Nat.pos_iff_ne_zero.mp h), countSuccesses_eq_filter]

/-- C9 witness: at the positive trial count 3 with only trial 2 graded
correct, the function returns (1, 3). -/
theorem C9_witness :
    test_fast_learner (fun t => t == 1) 3 =
      some (((List.range 3).filter fun t => t == 1).length, 3) :=
  C9_test_fast_learner_counts.2.1 (fun t => t == 1) 3 (by decide)

/-- C10: the loop asserts, for each neighbor below the threshold, that
the backend's document equals the side-table input text under its id;
whenever the index/side-table consistency invariant holds (each vector
entry's id maps in the side table to exactly that document, and the
backend only reports entries of the vector index), the call succeeds —
neither the lookup nor the assertion fails — and each returned tuple's
first component is that common input text. -/
theorem C10_assert_holds_under_invariant (s : StringSimilarityMap)
    (backend : String → Nat → List (Nat × String × ℚ)) (q : String) (n : Int)
    (threshold : ℚ)
    (hcons : ∀ u doc, (u, doc) ∈ s.vec_db →
      ∃ o, dictLookup s.uid_text_dict u = some (doc, o))
    (hback : ∀ qt m r, r ∈ backend qt m → (r.1, r.2.1) ∈ s.vec_db) :
    ∃ l, (s.get_related_string_pairs backend q n threshold).result = .ok l ∧
      ∀ e ∈ l, e.2.2 < threshold ∧
        ∃ u, dictLookup s.uid_text_dict u = some (e.1, e.2.1) := by
  have hres : ∀ r ∈ queriedResults s backend q n, r.2.2 < threshold →
      ∃ o, dictLookup s.uid_text_dict r.1 = some (r.2.1, o) := by
    intro r hr _
    exact hcons _ _ (hback _ _ r (mem_queriedResults hr))
  rw [get_related_result_eq]
  refine ⟨_, processResults_of_consistent hres, ?_⟩
  intro e he
  obtain ⟨r, hrmem, hrel⟩ := List.mem_filterMap.mp he
  refine ⟨relatedOf_some_lt hrel, ?_⟩
  unfold relatedOf at hrel
  split_ifs at hrel with hlt
  obtain ⟨p, hp, hfe⟩ := Option.map_eq_some'.mp hrel
  obtain ⟨o, ho⟩ := hres r hrmem hlt
  rw [ho] at hp
  cases hp
  subst hfe
  exact ⟨r.1, ho⟩

/-- C10 witness: on the consistent store `oneEntryMap` with its faithful
`echoBackend`, retrieval succeeds and every returned tuple's first
component is the side-table input text under some id. -/
theorem C10_witness :
    ∃ l, (oneEntryMap.get_related_string_pairs echoBackend "a" 1 1).result = .ok l ∧
      ∀ e ∈ l, e.2.2 < 1 ∧
        ∃ u, dictLookup oneEntryMap.uid_text_dict u = some (e.1, e.2.1) :=
  C10_assert_holds_under_invariant oneEntryMap echoBackend "a" 1 1
    (by
      intro u doc h
      simp only [oneEntryMap, List.mem_singleton, Prod.mk.injEq] at h
      obtain ⟨rfl, rfl⟩ := h
      exact ⟨"x", rfl⟩)
    (by
      intro qt m r h
      simp only [echoBackend, List.mem_singleton] at h
      subst h
      simp [oneEntryMap])
